import Mathlib

/-!
# Shallow embedding of `src/dnsperf.cpp`

`dnsperf` periodically probes the authoritative nameservers of a set of
domains and stores latencies and per-domain statistics in MySQL tables.
This file embeds the measurement-and-aggregation engine:

* `QueryRecord` / `StatRow` model rows of the `dnsperf_queries` and
  `dnsperf_stats` tables (MySQL `DATETIME` timestamps are modelled as
  naturals, which is faithful because the `"%Y-%m-%d %X"` format used by
  the program compares chronologically).
* `resolve`, `run_ns_loop`, `build_resolver`, `dnsperf_do` and
  `main_iteration` embed the probe and the scheduling loop.  The
  interaction with the network (NS answers, response packets, clock
  readings) is passed in explicitly as oracle data.
* `dnsperf_stats` embeds the SQL aggregation
  (`avg`/`stddev`/`count`/`min`/`max` over the query-log rows of one
  domain) and the `UPDATE` of the stats table.  MySQL `STDDEV` is
  `STDDEV_POP`, the square root of the population variance; because the
  square root is injective on nonnegative reals, the published standard
  deviation is modelled by its square (`StatRow.stddevSq`), and
  "the published stddev equals `q`" is the predicate `stddev_eq`.
-/

/-- A row of the `dnsperf_queries` value table: one row per successful
probe, inserted by `dnsperf_update_valtable` with the domain, the textual
nameserver name, the measured latency in microseconds (an
`unsigned long`) and the timestamp taken at probe time. -/
structure QueryRecord where
  domain : String
  nameserver : String
  latency : Nat
  timestamp : Nat
deriving DecidableEq, Repr

/-- A row of the `dnsperf_stats` table (`domain`, `average`, `stddev`,
`count`, `first`, `last`).  The `stddev` column is represented by its
square `stddevSq`: the value stored by the program is always the
nonnegative square root of `stddevSq`, so equalities of stored stddevs
correspond exactly to equalities of the `stddevSq` fields. -/
structure StatRow where
  domain : String
  average : ℚ
  stddevSq : ℚ
  count : Nat
  first : Nat
  last : Nat
deriving DecidableEq, Repr

/-- The ten hard-coded Alexa domains (`default_domains` in the source). -/
def default_domains : List String :=
  ["google.com", "facebook.com", "youtube.com", "yahoo.com", "live.com",
   "wikipedia.org", "baidu.com", "blogger.com", "msn.com", "qq.com"]

/-- The stats table as created by `dnsperf_create_stattable`: after
`CREATE TABLE` it executes, for each of the ten default domains,
`insert into <stattable> values (<domain>, 0, 0, 0, 0, 0)`. -/
def initial_stattable : List StatRow :=
  default_domains.map fun d => ⟨d, 0, 0, 0, 0, 0⟩

/-- MySQL `AVG` over the (non-null) latency column: the exact rational
sum divided by the number of rows. -/
def sql_avg (xs : List Nat) : ℚ :=
  ((xs.map fun x => (x : ℚ)).sum) / xs.length

/-- Population variance, the square of MySQL `STDDEV` (= `STDDEV_POP`):
sum of squared deviations from the mean divided by the number of rows. -/
def popVarianceQ (xs : List Nat) : ℚ :=
  ((xs.map fun x => ((x : ℚ) - sql_avg xs) ^ 2).sum) / xs.length

/-- Sample variance (Bessel's correction): sum of squared deviations
divided by `n - 1`.  This is what the specification prescribes for the
published standard deviation; it is *not* what MySQL `STDDEV` computes. -/
def sampleVarianceQ (xs : List Nat) : ℚ :=
  ((xs.map fun x => ((x : ℚ) - sql_avg xs) ^ 2).sum) / ((xs.length : ℚ) - 1)

/-- "The standard deviation published for latencies `xs` equals `q`":
since the published value is the nonnegative square root of the
population variance, this holds exactly when `q` is nonnegative and
`q ^ 2` is the population variance. -/
def stddev_eq (xs : List Nat) (q : ℚ) : Prop :=
  0 ≤ q ∧ q ^ 2 = popVarianceQ xs

/-- MySQL `MIN` over a nonempty column (the empty case is never reached
because `dnsperf_stats` bails out first; it is mapped to `0`). -/
def sql_min : List Nat → Nat
  | [] => 0
  | x :: xs => xs.foldl Nat.min x

/-- MySQL `MAX` over a nonempty column (the empty case is never reached;
it is mapped to `0`). -/
def sql_max : List Nat → Nat
  | [] => 0
  | x :: xs => xs.foldl Nat.max x

/-- The rows of the query log selected by `where domain='<d>'`. -/
def recordsFor (log : List QueryRecord) (d : String) : List QueryRecord :=
  log.filter fun r => r.domain = d

/-- The latency column of the rows selected for domain `d`. -/
def latenciesFor (log : List QueryRecord) (d : String) : List Nat :=
  (recordsFor log d).map fun r => r.latency

/-- The timestamp column of the rows selected for domain `d`. -/
def timestampsFor (log : List QueryRecord) (d : String) : List Nat :=
  (recordsFor log d).map fun r => r.timestamp

/-- The effect on one stats-table row of
`update <stattable> set average = ..., stddev = ..., count = ...,
first = ..., last = ... where domain='<d>'`: a row whose `domain` column
matches has every other column replaced; any other row is untouched. -/
def stat_update_row (d : String) (avg stdv : ℚ) (cnt fstv lstv : Nat)
    (row : StatRow) : StatRow :=
  if row.domain = d then
    ⟨row.domain, avg, stdv, cnt, fstv, lstv⟩
  else row

/-- Embedding of `dnsperf_stats`.  Inputs: the query log, the current
stats table and the domain.  If the domain has no query-log rows the
function returns `1` (the C `return 1`) and leaves the table unchanged;
otherwise it computes `avg(latency)`, `stddev(latency)` (population, as
MySQL's `STDDEV` does — stored here as its square), `count(latency)`,
`min(timestamp)`, `max(timestamp)` over the domain's rows and issues the
`UPDATE` on the stats table, returning `0`. -/
def dnsperf_stats (log : List QueryRecord) (table : List StatRow)
    (domain : String) : List StatRow × Nat :=
  if recordsFor log domain = [] then (table, 1)
  else
    (table.map (stat_update_row domain (sql_avg (latenciesFor log domain))
        (popVarianceQ (latenciesFor log domain)) (latenciesFor log domain).length
        (sql_min (timestampsFor log domain)) (sql_max (timestampsFor log domain))), 0)

/-- What came back for the single A-record query `resolve` sends:
either no packet at all (`ldns_resolver_query` returned `NULL`,
a timeout or unreachable server) or a response packet carrying the
(possibly empty) list of A records of its answer section. -/
inductive ProbeResponse where
  | timeout
  | response (answers : List String)
deriving DecidableEq, Repr

/-- `2 ^ 64`, the modulus of the C `unsigned long` holding `us1`. -/
def M64 : Nat := 2 ^ 64

/-- The elapsed-time computation of `resolve`:
`us1 = t2.tv_sec * 1000000 + t2.tv_usec - (t1.tv_sec * 1000000 + t1.tv_usec)`
where `t1`, `t2` are `gettimeofday` wall-clock readings (here already
flattened to microsecond counts, as mathematical integers because the
wall clock may be adjusted backwards between the readings) and the
result is stored in an `unsigned long`, i.e. reduced modulo `2 ^ 64`. -/
def elapsed_micros (t1 t2 : Int) : Nat :=
  ((t2 - t1) % (M64 : Int)).toNat

/-- Embedding of `resolve`: if no packet came back it prints a
diagnostic and returns `0`; otherwise it extracts the answer section
(whose contents it then ignores) and returns the elapsed wall-clock
time.  The return value is the only channel: `0` both signals failure
and is a possible measured value. -/
def resolve (resp : ProbeResponse) (t1 t2 : Int) : Nat :=
  match resp with
  | .timeout => 0
  | .response _ => elapsed_micros t1 t2

/-- The oracle data consumed while probing one NS record inside
`dnsperf_do`: the record's name field (`ldns_rr_rdf(..., 0)`, which may
be `NULL`), the response to the A query, the `time(NULL)` reading used
as the row timestamp, and the two `gettimeofday` readings. -/
structure NsProbe where
  ns_name : Option String
  resp : ProbeResponse
  tm : Nat
  t1 : Int
  t2 : Int
deriving DecidableEq, Repr

/-- The inner nameserver loop of `dnsperf_do` for one domain.  Returns
the query-log rows inserted (in insertion order) and whether the loop
aborted: a record whose name field is `NULL` makes `dnsperf_do`
`return 1` immediately (rows inserted earlier persist); a probe whose
`resolve` value is `0` is skipped (`continue`) and inserts nothing;
otherwise a `QueryRecord` is inserted via `dnsperf_update_valtable`. -/
def run_ns_loop (domain : String) : List NsProbe → List QueryRecord × Bool
  | [] => ([], false)
  | pr :: rest =>
    match pr.ns_name with
    | none => ([], true)
    | some ns =>
      let tv := resolve pr.resp pr.t1 pr.t2
      if tv = 0 then run_ns_loop domain rest
      else
        let out := run_ns_loop domain rest
        (⟨domain, ns, tv, pr.tm⟩ :: out.1, out.2)

/-- Outcome of the NS lookup performed by `build_resolver` for one
domain: the three fatal cases (`ldns_dname_new_frm_str` failed,
`ldns_resolver_new_frm_file` failed, `ldns_resolver_query` returned no
packet) and the answered case, carrying one `NsProbe` per NS record of
the answer section (an answer without NS records is `answered []`). -/
inductive NsLookupOutcome where
  | malformedName
  | noResolverConf
  | queryFailed
  | answered (probes : List NsProbe)
deriving DecidableEq, Repr

/-- Embedding of `build_resolver`: each of the three failure cases
executes `exit(EXIT_FAILURE)`, modelled as `none`; on success the NS
records of the answer (possibly none) are handed to the caller. -/
def build_resolver : NsLookupOutcome → Option (List NsProbe)
  | .malformedName => none
  | .noResolverConf => none
  | .queryFailed => none
  | .answered probes => some probes

/-- Result of one `dnsperf_do` pass over the domain list: `exited` if
`build_resolver` called `exit` (the process is gone), `failed` if
`dnsperf_do` returned `1` (a `NULL` NS name), `ok` if it returned `0`.
Each constructor carries the query-log rows inserted during the pass and
the domains for which `dnsperf_stats` was invoked, in order. -/
inductive CycleResult where
  | exited (log : List QueryRecord) (statted : List String)
  | failed (log : List QueryRecord) (statted : List String)
  | ok (log : List QueryRecord) (statted : List String)
deriving DecidableEq, Repr

/-- Embedding of `dnsperf_do`: for each domain row, run
`build_resolver` (whose failure exits the process), loop over the NS
records probing each, then call `dnsperf_stats` for the domain — unless
the NS loop aborted on a `NULL` name, in which case `dnsperf_do`
returns `1` without reaching the stats call. -/
def dnsperf_do : List (String × NsLookupOutcome) → CycleResult
  | [] => .ok [] []
  | (d, env) :: rest =>
    match build_resolver env with
    | none => .exited [] []
    | some probes =>
      let out := run_ns_loop d probes
      if out.2 then .failed out.1 []
      else
        match dnsperf_do rest with
        | .exited l s => .exited (out.1 ++ l) (d :: s)
        | .failed l s => .failed (out.1 ++ l) (d :: s)
        | .ok l s => .ok (out.1 ++ l) (d :: s)

/-- How one iteration of the `while (1)` loop in `main` ends:
`exitedProc` if the process exited inside `build_resolver`, `halted` if
`dnsperf_do` returned nonzero so `main` printed "Failed" and returned
`1`, `continues` if the iteration completed and the loop sleeps
`usleep(dnsperf_freq * 1000)` and runs the next iteration. -/
inductive IterResult where
  | exitedProc
  | halted
  | continues
deriving DecidableEq, Repr

/-- One iteration of the scheduling loop of `main`. -/
def main_iteration (cycle : List (String × NsLookupOutcome)) : IterResult :=
  match dnsperf_do cycle with
  | .exited _ _ => .exitedProc
  | .failed _ _ => .halted
  | .ok _ _ => .continues

/-- The scheduling loop runs forever on a schedule (the oracle data of
the `n`-th iteration): no iteration ever exits the process or makes
`main` return. -/
def loop_runs_forever (sched : Nat → List (String × NsLookupOutcome)) : Prop :=
  ∀ n, main_iteration (sched n) = .continues

/-- The random relative label built by
`sprintf(dnsperf_hostname, "foo%d", rand() % 1024)`, as a function of
the (nonnegative) `rand()` output. -/
def cachebust_label (r : Nat) : String :=
  "foo" ++ toString (r % 1024)

/-- The full cache-busting query name: after the label,
`sprintf(dnsperf_hostname + idx, ".%s", domain)` appends a dot and the
domain. -/
def cachebust_name (r : Nat) (domain : String) : String :=
  cachebust_label r ++ "." ++ domain

/-- A concrete query log: three successful probes for `google.com` with
latencies 100, 200, 300 µs, the end-to-end scenario of the spec. -/
def log3 : List QueryRecord :=
  [⟨"google.com", "ns1.google.com.", 100, 1⟩,
   ⟨"google.com", "ns2.google.com.", 200, 2⟩,
   ⟨"google.com", "ns3.google.com.", 300, 3⟩]

theorem foldl_min_le_init (xs : List Nat) (a : Nat) : xs.foldl Nat.min a ≤ a := by
  induction xs generalizing a with
  | nil => exact Nat.le_refl a
  | cons y ys ih =>
    exact Nat.le_trans (ih (Nat.min a y)) (Nat.min_le_left a y)

theorem foldl_min_le_mem {xs : List Nat} {x : Nat} (h : x ∈ xs) (a : Nat) :
    xs.foldl Nat.min a ≤ x := by
  induction xs generalizing a with
  | nil => cases h
  | cons y ys ih =>
    rcases List.mem_cons.mp h with rfl | hx
    · exact Nat.le_trans (foldl_min_le_init ys (Nat.min a x)) (Nat.min_le_right a x)
    · exact ih hx (Nat.min a y)

theorem init_le_foldl_max (xs : List Nat) (a : Nat) : a ≤ xs.foldl Nat.max a := by
  induction xs generalizing a with
  | nil => exact Nat.le_refl a
  | cons y ys ih =>
    exact Nat.le_trans (Nat.le_max_left a y) (ih (Nat.max a y))

theorem mem_le_foldl_max {xs : List Nat} {x : Nat} (h : x ∈ xs) (a : Nat) :
    x ≤ xs.foldl Nat.max a := by
  induction xs generalizing a with
  | nil => cases h
  | cons y ys ih =>
    rcases List.mem_cons.mp h with rfl | hx
    · exact Nat.le_trans (Nat.le_max_right a x) (init_le_foldl_max ys (Nat.max a x))
    · exact ih hx (Nat.max a y)

theorem sql_min_le {xs : List Nat} {x : Nat} (h : x ∈ xs) : sql_min xs ≤ x := by
  cases xs with
  | nil => cases h
  | cons y ys =>
    rcases List.mem_cons.mp h with rfl | hx
    · exact foldl_min_le_init ys x
    · exact foldl_min_le_mem hx y

theorem le_sql_max {xs : List Nat} {x : Nat} (h : x ∈ xs) : x ≤ sql_max xs := by
  cases xs with
  | nil => cases h
  | cons y ys =>
    rcases List.mem_cons.mp h with rfl | hx
    · exact init_le_foldl_max ys x
    · exact mem_le_foldl_max hx y

theorem foldl_min_mem_or_init (xs : List Nat) (a : Nat) :
    xs.foldl Nat.min a = a ∨ xs.foldl Nat.min a ∈ xs := by
  induction xs generalizing a with
  | nil => exact Or.inl rfl
  | cons y ys ih =>
    rcases ih (Nat.min a y) with h | h
    · rcases Nat.le_total a y with hle | hle
      · have hm : Nat.min a y = a := by unfold Nat.min; exact inf_eq_left.mpr hle
        exact Or.inl (by rw [List.foldl_cons, h, hm])
      · have hm : Nat.min a y = y := by unfold Nat.min; exact inf_eq_right.mpr hle
        exact Or.inr (by rw [List.foldl_cons, h, hm]; exact List.mem_cons_self y ys)
    · exact Or.inr (List.mem_cons_of_mem y h)

theorem foldl_max_mem_or_init (xs : List Nat) (a : Nat) :
    xs.foldl Nat.max a = a ∨ xs.foldl Nat.max a ∈ xs := by
  induction xs generalizing a with
  | nil => exact Or.inl rfl
  | cons y ys ih =>
    rcases ih (Nat.max a y) with h | h
    · rcases Nat.le_total y a with hle | hle
      · have hm : Nat.max a y = a := by unfold Nat.max; exact sup_eq_left.mpr hle
        exact Or.inl (by rw [List.foldl_cons, h, hm])
      · have hm : Nat.max a y = y := by unfold Nat.max; exact sup_eq_right.mpr hle
        exact Or.inr (by rw [List.foldl_cons, h, hm]; exact List.mem_cons_self y ys)
    · exact Or.inr (List.mem_cons_of_mem y h)

theorem sql_min_mem {xs : List Nat} (h : xs ≠ []) : sql_min xs ∈ xs := by
  cases xs with
  | nil => exact absurd rfl h
  | cons y ys =>
    rcases foldl_min_mem_or_init ys y with hm | hm
    · rw [sql_min, hm]; exact List.mem_cons_self y ys
    · exact List.mem_cons_of_mem y (by rw [sql_min]; exact hm)

theorem sql_max_mem {xs : List Nat} (h : xs ≠ []) : sql_max xs ∈ xs := by
  cases xs with
  | nil => exact absurd rfl h
  | cons y ys =>
    rcases foldl_max_mem_or_init ys y with hm | hm
    · rw [sql_max, hm]; exact List.mem_cons_self y ys
    · exact List.mem_cons_of_mem y (by rw [sql_max]; exact hm)

theorem dnsperf_stats_row_of_domain {log : List QueryRecord} {table : List StatRow}
    {d : String} {row : StatRow} (hne : recordsFor log d ≠ [])
    (hrow : row ∈ (dnsperf_stats log table d).1) (hdom : row.domain = d) :
    row = ⟨d, sql_avg (latenciesFor log d), popVarianceQ (latenciesFor log d),
      (latenciesFor log d).length, sql_min (timestampsFor log d),
      sql_max (timestampsFor log d)⟩ := by
  unfold dnsperf_stats at hrow
  rw [if_neg hne] at hrow
  rcases List.mem_map.mp hrow with ⟨old, _, hupd⟩
  unfold stat_update_row at hupd
  by_cases hc : old.domain = d
  · rw [if_pos hc] at hupd
    rw [← hupd, hc]
  · rw [if_neg hc] at hupd
    rw [← hupd] at hdom
    exact absurd hdom hc

theorem filter_map_stat_update (d : String) (avg stdv : ℚ) (cnt fstv lstv : Nat)
    (table : List StatRow) :
    (table.map (stat_update_row d avg stdv cnt fstv lstv)).filter
        (fun r => r.domain = d) =
      List.replicate ((table.filter (fun r => r.domain = d)).length)
        ⟨d, avg, stdv, cnt, fstv, lstv⟩ := by
  induction table with
  | nil => rfl
  | cons row rest ih =>
    by_cases h : row.domain = d
    · simp [stat_update_row, h, List.filter_cons, ih, List.replicate]
    · simp [stat_update_row, h, List.filter_cons, ih]

theorem run_ns_loop_cons_some (d : String) (pr : NsProbe) (rest : List NsProbe)
    {ns : String} (hn : pr.ns_name = some ns) :
    (run_ns_loop d (pr :: rest)).2 = (run_ns_loop d rest).2 := by
  simp only [run_ns_loop, hn]
  split <;> rfl

theorem run_ns_loop_no_abort (d : String) {probes : List NsProbe}
    (h : ∀ pr ∈ probes, pr.ns_name ≠ none) : (run_ns_loop d probes).2 = false := by
  induction probes with
  | nil => rfl
  | cons pr rest ih =>
    rcases hn : pr.ns_name with _ | ns
    · exact absurd hn (h pr (List.mem_cons_self pr rest))
    · rw [run_ns_loop_cons_some d pr rest hn]
      exact ih fun p hp => h p (List.mem_cons_of_mem pr hp)

theorem dnsperf_do_ok {cycle : List (String × NsLookupOutcome)}
    (h : ∀ p ∈ cycle, ∃ probes, p.2 = NsLookupOutcome.answered probes ∧
      ∀ pr ∈ probes, pr.ns_name ≠ none) :
    ∃ l s, dnsperf_do cycle = .ok l s := by
  induction cycle with
  | nil => exact ⟨[], [], rfl⟩
  | cons p rest ih =>
    obtain ⟨probes, hp, hnn⟩ := h p (List.mem_cons_self p rest)
    obtain ⟨l, s, hrest⟩ := ih fun q hq => h q (List.mem_cons_of_mem p hq)
    obtain ⟨d, env⟩ := p
    simp only at hp
    subst hp
    have hab := run_ns_loop_no_abort d hnn
    exact ⟨(run_ns_loop d probes).1 ++ l, d :: s, by
      simp [dnsperf_do, build_resolver, hab, hrest]⟩

/-- Claim C1 is false on the code: `dnsperf_stats` computes the standard
deviation with MySQL's `STDDEV`, the *population* standard deviation
(divisor `n`).  For the recorded latencies {100, 200, 300} the published
row for `google.com` carries squared stddev `20000 / 3` (stddev ≈ 81.65),
while the sample variance is `100 ^ 2`; the published stddev is not 100. -/
theorem C1_counterexample :
    (dnsperf_stats log3 initial_stattable "google.com").1.head? =
      some ⟨"google.com", 200, 20000 / 3, 3, 1, 3⟩ ∧
    sampleVarianceQ [100, 200, 300] = 100 ^ 2 ∧
    ¬ stddev_eq [100, 200, 300] 100 := by
  refine ⟨?_, ?_, ?_⟩
  · simp [dnsperf_stats, recordsFor, log3, initial_stattable, default_domains,
      stat_update_row, latenciesFor, timestampsFor, sql_avg, popVarianceQ,
      sql_min, sql_max]
    norm_num
  · simp [sampleVarianceQ, sql_avg]
    norm_num
  · intro h
    have h2 := h.2
    rw [show popVarianceQ [100, 200, 300] = 20000 / 3 by
      simp [popVarianceQ, sql_avg]; norm_num] at h2
    norm_num at h2

/-- Claim C1, amended: the stddev published by the stats aggregation is
the population standard deviation of the recorded latencies (sum of
squared deviations divided by `n`, as MySQL's `STDDEV` computes), not the
sample standard deviation; for recorded latencies {100, 200, 300} its
square is `20000 / 3`, i.e. the published stddev is ≈ 81.65, not 100. -/
theorem C1_amended (log : List QueryRecord) (table : List StatRow) (d : String)
    (row : StatRow) (hne : recordsFor log d ≠ [])
    (hrow : row ∈ (dnsperf_stats log table d).1) (hdom : row.domain = d) :
    row.stddevSq = popVarianceQ (latenciesFor log d) ∧
    popVarianceQ [100, 200, 300] = 20000 / 3 := by
  constructor
  · rw [dnsperf_stats_row_of_domain hne hrow hdom]
  · simp [popVarianceQ, sql_avg]
    norm_num

/-- Claim C1 witness: the amended statement instantiated with the
three-probe `google.com` log and the freshly created stats table. -/
theorem C1_witness :
    recordsFor log3 "google.com" ≠ [] ∧
    (⟨"google.com", 200, 20000 / 3, 3, 1, 3⟩ : StatRow) ∈
      (dnsperf_stats log3 initial_stattable "google.com").1 ∧
    ((⟨"google.com", 200, 20000 / 3, 3, 1, 3⟩ : StatRow).stddevSq =
      popVarianceQ (latenciesFor log3 "google.com") ∧
     popVarianceQ [100, 200, 300] = 20000 / 3) := by
  have hmem : (⟨"google.com", 200, 20000 / 3, 3, 1, 3⟩ : StatRow) ∈
      (dnsperf_stats log3 initial_stattable "google.com").1 := by
    simp [dnsperf_stats, recordsFor, log3, initial_stattable, default_domains,
      stat_update_row, latenciesFor, timestampsFor, sql_avg, popVarianceQ,
      sql_min, sql_max]
    norm_num
  exact ⟨by decide, hmem,
    C1_amended log3 initial_stattable "google.com" _ (by decide) hmem rfl⟩

/-- Claim C2 is false on the code: a fatal resolver-configuration
failure while looking up the NS records of `a.com` makes `build_resolver`
call `exit(EXIT_FAILURE)`; the whole run terminates, `b.com` is never
probed, nothing is logged and no stats aggregation happens for `b.com`. -/
theorem C2_counterexample :
    dnsperf_do [("a.com", .malformedName),
      ("b.com", .answered [⟨some "ns.b.com.", .response [], 1, 0, 500⟩])] =
      .exited [] [] ∧
    main_iteration [("a.com", .malformedName),
      ("b.com", .answered [⟨some "ns.b.com.", .response [], 1, 0, 500⟩])] =
      .exitedProc := by
  exact ⟨rfl, rfl⟩

/-- Claim C2, amended: a fatal resolver-configuration failure while
looking up a domain's NS records (malformed name, no resolver available,
NS query failure) terminates the whole process at once: the remaining
domains of the cycle are neither probed nor aggregated.  Only the
non-fatal case of an NS answer carrying zero records merely skips the
domain (its stats call still runs) and lets the rest of the cycle
proceed. -/
theorem C2_amended (d : String) (rest : List (String × NsLookupOutcome))
    (l : List QueryRecord) (s : List String) (h : dnsperf_do rest = .ok l s) :
    dnsperf_do ((d, .malformedName) :: rest) = .exited [] [] ∧
    dnsperf_do ((d, .noResolverConf) :: rest) = .exited [] [] ∧
    dnsperf_do ((d, .queryFailed) :: rest) = .exited [] [] ∧
    dnsperf_do ((d, .answered []) :: rest) = .ok l (d :: s) := by
  refine ⟨rfl, rfl, rfl, ?_⟩
  simp [dnsperf_do, build_resolver, run_ns_loop, h]

/-- Claim C2 witness: the amended statement instantiated with a
one-domain remainder cycle that probes `b.com` successfully. -/
theorem C2_witness :
    dnsperf_do [("b.com", .answered [⟨some "ns.b.com.", .response [], 1, 0, 500⟩])] =
      .ok [⟨"b.com", "ns.b.com.", 500, 1⟩] ["b.com"] ∧
    (dnsperf_do [("a.com", .malformedName),
        ("b.com", .answered [⟨some "ns.b.com.", .response [], 1, 0, 500⟩])] =
        .exited [] [] ∧
     dnsperf_do [("a.com", .noResolverConf),
        ("b.com", .answered [⟨some "ns.b.com.", .response [], 1, 0, 500⟩])] =
        .exited [] [] ∧
     dnsperf_do [("a.com", .queryFailed),
        ("b.com", .answered [⟨some "ns.b.com.", .response [], 1, 0, 500⟩])] =
        .exited [] [] ∧
     dnsperf_do [("a.com", .answered []),
        ("b.com", .answered [⟨some "ns.b.com.", .response [], 1, 0, 500⟩])] =
        .ok [⟨"b.com", "ns.b.com.", 500, 1⟩] ["a.com", "b.com"]) := by
  have h : dnsperf_do
      [("b.com", .answered [⟨some "ns.b.com.", .response [], 1, 0, 500⟩])] =
      .ok [⟨"b.com", "ns.b.com.", 500, 1⟩] ["b.com"] := by decide
  exact ⟨h, C2_amended "a.com" _ _ _ h⟩

/-- Claim C3 is false on the code: `resolve` reports failure in-band by
returning `0`, so a successful response whose measured elapsed time is
exactly zero microseconds is indistinguishable from the no-result case —
a real response packet measured at 0 µs yields the same value as a
timeout, and the nameserver loop logs nothing for it. -/
theorem C3_counterexample :
    resolve (.response []) 5 5 = 0 ∧
    resolve .timeout 5 5 = 0 ∧
    run_ns_loop "d.com" [⟨some "ns.d.com.", .response [], 9, 5, 5⟩] =
      ([], false) := by decide

/-- Claim C3, amended: the probe has no success signal distinct from the
measured value — `resolve` returns the elapsed time and uses `0` as the
failure sentinel, so a measurement of exactly zero microseconds is
conflated with the no-result case: it compares equal to a timeout and the
probe is skipped without logging. -/
theorem C3_amended (d ns : String) (tm : Nat) (ans : List String) (t1 t2 : Int)
    (h : elapsed_micros t1 t2 = 0) :
    resolve (.response ans) t1 t2 = resolve .timeout t1 t2 ∧
    run_ns_loop d [⟨some ns, .response ans, tm, t1, t2⟩] = ([], false) := by
  constructor
  · simp [resolve, h]
  · simp [run_ns_loop, resolve, h]

/-- Claim C3 witness: the amended statement instantiated with a response
received in the same microsecond it was sent. -/
theorem C3_witness :
    elapsed_micros 5 5 = 0 ∧
    (resolve (.response ["1.2.3.4"]) 5 5 = resolve .timeout 5 5 ∧
     run_ns_loop "d.com" [⟨some "ns.d.com.", .response ["1.2.3.4"], 9, 5, 5⟩] =
       ([], false)) :=
  ⟨by decide, C3_amended "d.com" "ns.d.com." 9 ["1.2.3.4"] 5 5 (by decide)⟩

/-- Claim C4 is false on the code: the latency is a `gettimeofday`
wall-clock subtraction stored in an `unsigned long`, not a monotonic
clock difference.  If the wall clock is adjusted backwards by one second
between the two readings, the subtraction wraps modulo `2 ^ 64` and the
probe logs the huge latency `2 ^ 64 - 1000000` as a successful
measurement. -/
theorem C4_counterexample :
    resolve (.response []) 1000000 0 = 2 ^ 64 - 1000000 ∧
    run_ns_loop "d.com" [⟨some "ns.d.com.", .response [], 7, 1000000, 0⟩] =
      ([⟨"d.com", "ns.d.com.", 2 ^ 64 - 1000000, 7⟩], false) := by decide

/-- Claim C4, amended: the reported latency is the difference of two
`gettimeofday` wall-clock readings reduced modulo `2 ^ 64` (the
`unsigned long`); as long as the wall clock does not step backwards
between the readings (and the delta stays below `2 ^ 64`) the reported
latency equals the nonnegative delta `t2 - t1`, but the clock source is
adjustable wall-clock time, so this is not guaranteed across a clock
adjustment. -/
theorem C4_amended (ans : List String) (t1 t2 : Int) (h1 : t1 ≤ t2)
    (h2 : t2 - t1 < (2 : Int) ^ 64) :
    resolve (.response ans) t1 t2 = (t2 - t1).toNat ∧ 0 ≤ t2 - t1 := by
  have h0 : (0 : Int) ≤ t2 - t1 := sub_nonneg.mpr h1
  refine ⟨?_, h0⟩
  show ((t2 - t1) % (M64 : Int)).toNat = (t2 - t1).toNat
  rw [show ((M64 : Nat) : Int) = (2 : Int) ^ 64 by norm_num [M64]]
  rw [Int.emod_eq_of_lt h0 h2]

/-- Claim C4 witness: the amended statement instantiated with readings
10 µs and 250 µs of a well-behaved clock. -/
theorem C4_witness :
    (10 : Int) ≤ 250 ∧ (250 : Int) - 10 < (2 : Int) ^ 64 ∧
    (resolve (.response []) 10 250 = ((250 : Int) - 10).toNat ∧
     0 ≤ (250 : Int) - 10) :=
  ⟨by norm_num, by norm_num, C4_amended [] 10 250 (by norm_num) (by norm_num)⟩

/-- Claim C5 is false on the code: a failure while probing a single
nameserver can reach a terminal state.  An NS record whose name field is
absent (`ldns_rr_rdf` returning `NULL`) makes `dnsperf_do` return `1`,
upon which `main` prints "Failed" and returns — the scheduling loop
halts instead of sleeping and repeating. -/
theorem C5_counterexample :
    dnsperf_do [("d.com", .answered [⟨none, .response [], 1, 0, 5⟩])] =
      .failed [] [] ∧
    main_iteration [("d.com", .answered [⟨none, .response [], 1, 0, 5⟩])] =
      .halted := by decide

/-- Claim C5, amended: as long as every cycle's NS lookups succeed and
every returned NS record has a name field, the scheduler never reaches a
terminal state — probe failures (timeouts, zero measurements) are skipped
and each iteration ends by sleeping and repeating; but an NS record with
an absent name halts the loop, and a fatal NS-lookup failure exits the
process. -/
theorem C5_amended (sched : Nat → List (String × NsLookupOutcome))
    (h : ∀ n, ∀ p ∈ sched n, ∃ probes,
      p.2 = NsLookupOutcome.answered probes ∧ ∀ pr ∈ probes, pr.ns_name ≠ none) :
    loop_runs_forever sched := by
  intro n
  obtain ⟨l, s, hok⟩ := dnsperf_do_ok (h n)
  simp [main_iteration, hok]

/-- Claim C5 witness: the amended statement instantiated with a schedule
whose every cycle probes `a.com` at one named nameserver that times out —
the probe failure never halts the loop. -/
theorem C5_witness :
    loop_runs_forever fun _ =>
      [("a.com", NsLookupOutcome.answered
        [⟨some "ns.a.com.", ProbeResponse.timeout, 1, 0, 0⟩])] :=
  C5_amended _ fun _ p hp => by
    rcases List.mem_singleton.mp hp with rfl
    exact ⟨[⟨some "ns.a.com.", ProbeResponse.timeout, 1, 0, 0⟩], rfl, by decide⟩

/-- Claim C6 is false on the code: the random label is
`"foo" ++ (rand() % 1024)`, drawn from a space of only 1024 values, so
collisions are far from negligible — the distinct `rand()` outputs 7 and
1031 already produce the identical label and the identical full query
name for the same domain. -/
theorem C6_counterexample :
    cachebust_label 7 = cachebust_label 1031 ∧ (7 : Nat) ≠ 1031 ∧
    cachebust_name 7 "google.com" = cachebust_name 1031 "google.com" := by decide

/-- Claim C6, amended: the generator does return a name of exactly the
form label-dot-domain, but the label is `"foo"` followed by
`rand() % 1024` in decimal: it is drawn from a space of at most 1024
values, and any two `rand()` outputs congruent modulo 1024 produce the
same label, so repeated invocations within a monitoring run collide with
probability far from negligible. -/
theorem C6_amended (r r' : Nat) (d : String) (h : r % 1024 = r' % 1024) :
    cachebust_name r d = cachebust_label r ++ "." ++ d ∧
    cachebust_label r = "foo" ++ toString (r % 1024) ∧
    cachebust_label r = cachebust_label r' ∧
    r % 1024 < 1024 := by
  refine ⟨rfl, rfl, ?_, Nat.mod_lt r (by norm_num)⟩
  simp [cachebust_label, h]

/-- Claim C6 witness: the amended statement instantiated with the
`rand()` outputs 7 and 1031 and the domain `google.com`. -/
theorem C6_witness :
    (7 : Nat) % 1024 = 1031 % 1024 ∧
    (cachebust_name 7 "google.com" = cachebust_label 7 ++ "." ++ "google.com" ∧
     cachebust_label 7 = "foo" ++ toString (7 % 1024) ∧
     cachebust_label 7 = cachebust_label 1031 ∧
     7 % 1024 < 1024) :=
  ⟨by decide, C6_amended 7 1031 "google.com" (by decide)⟩

/-- Claim C7 is false on the code: `dnsperf_stats` does decline to
touch the stats table for a domain with zero query records, but a
degenerate zero-filled statistics row does exist before the first
successful probe — `dnsperf_create_stattable` pre-inserts
`(domain, 0, 0, 0, 0, 0)` for every default domain at table-creation
time. -/
theorem C7_counterexample :
    (⟨"google.com", 0, 0, 0, 0, 0⟩ : StatRow) ∈ initial_stattable ∧
    dnsperf_stats [] initial_stattable "google.com" = (initial_stattable, 1) :=
  ⟨by decide, rfl⟩

/-- Claim C7, amended: for a domain with zero QueryRecords the stats
aggregation returns an error and leaves the stats table untouched
(never overwriting a row), but stats rows are not absent before the
first probe: the created stats table already holds a zero-filled row for
each of the ten default domains. -/
theorem C7_amended (log : List QueryRecord) (table : List StatRow) (d : String)
    (h : recordsFor log d = []) :
    dnsperf_stats log table d = (table, 1) ∧
    ∀ dd ∈ default_domains, (⟨dd, 0, 0, 0, 0, 0⟩ : StatRow) ∈ initial_stattable := by
  constructor
  · simp [dnsperf_stats, h]
  · intro dd hdd
    have := List.mem_map_of_mem (fun x => (⟨x, 0, 0, 0, 0, 0⟩ : StatRow)) hdd
    simpa [initial_stattable] using this

/-- Claim C7 witness: the amended statement instantiated with the empty
query log, the freshly created stats table and `google.com`. -/
theorem C7_witness :
    recordsFor [] "google.com" = [] ∧
    (dnsperf_stats [] initial_stattable "google.com" = (initial_stattable, 1) ∧
     ∀ dd ∈ default_domains,
       (⟨dd, 0, 0, 0, 0, 0⟩ : StatRow) ∈ initial_stattable) :=
  ⟨rfl, C7_amended [] initial_stattable "google.com" rfl⟩

/-- Claim C8 is confirmed: for a domain with at least one QueryRecord,
the row published by the stats recomputation has `count` equal to the
number of that domain's QueryRecords, a mean equal to the arithmetic mean
of the recorded latencies (stated product-form: count times mean is the
latency sum), and first/last timestamps that both lie within the range of
actually-recorded timestamps — each is itself the timestamp of one of the
domain's records — and bound every record's timestamp. -/
theorem C8_correct (log : List QueryRecord) (table : List StatRow) (d : String)
    (row : StatRow) (hne : recordsFor log d ≠ [])
    (hrow : row ∈ (dnsperf_stats log table d).1) (hdom : row.domain = d) :
    row.count = (recordsFor log d).length ∧
    (row.count : ℚ) * row.average = ((latenciesFor log d).map fun x => (x : ℚ)).sum ∧
    row.first ∈ timestampsFor log d ∧
    row.last ∈ timestampsFor log d ∧
    ∀ rec ∈ recordsFor log d, row.first ≤ rec.timestamp ∧ rec.timestamp ≤ row.last := by
  have hl : (latenciesFor log d).length = (recordsFor log d).length := by
    simp [latenciesFor]
  have h0 : (recordsFor log d).length ≠ 0 := fun hc => hne (List.length_eq_zero.mp hc)
  have hn : ((latenciesFor log d).length : ℚ) ≠ 0 :=
    Nat.cast_ne_zero.mpr (hl ▸ h0)
  have hts_ne : timestampsFor log d ≠ [] := by
    simp only [timestampsFor, ne_eq, List.map_eq_nil_iff]
    exact hne
  rw [dnsperf_stats_row_of_domain hne hrow hdom]
  refine ⟨hl, ?_, sql_min_mem hts_ne, sql_max_mem hts_ne, ?_⟩
  · show ((latenciesFor log d).length : ℚ) * sql_avg (latenciesFor log d) = _
    rw [sql_avg]
    field_simp
  · intro rec hrec
    have hts : rec.timestamp ∈ timestampsFor log d :=
      List.mem_map_of_mem (fun r => r.timestamp) hrec
    exact ⟨sql_min_le hts, le_sql_max hts⟩

/-- Claim C8 witness: the invariants instantiated with the three-probe
`google.com` log, the freshly created stats table and the published row. -/
theorem C8_witness :
    recordsFor log3 "google.com" ≠ [] ∧
    (⟨"google.com", 200, 20000 / 3, 3, 1, 3⟩ : StatRow) ∈
      (dnsperf_stats log3 initial_stattable "google.com").1 ∧
    ((⟨"google.com", 200, 20000 / 3, 3, 1, 3⟩ : StatRow).count =
        (recordsFor log3 "google.com").length ∧
     ((⟨"google.com", 200, 20000 / 3, 3, 1, 3⟩ : StatRow).count : ℚ) *
        (⟨"google.com", 200, 20000 / 3, 3, 1, 3⟩ : StatRow).average =
        ((latenciesFor log3 "google.com").map fun x => (x : ℚ)).sum ∧
     (⟨"google.com", 200, 20000 / 3, 3, 1, 3⟩ : StatRow).first ∈
        timestampsFor log3 "google.com" ∧
     (⟨"google.com", 200, 20000 / 3, 3, 1, 3⟩ : StatRow).last ∈
        timestampsFor log3 "google.com" ∧
     ∀ rec ∈ recordsFor log3 "google.com",
       (⟨"google.com", 200, 20000 / 3, 3, 1, 3⟩ : StatRow).first ≤ rec.timestamp ∧
       rec.timestamp ≤ (⟨"google.com", 200, 20000 / 3, 3, 1, 3⟩ : StatRow).last) := by
  have hmem : (⟨"google.com", 200, 20000 / 3, 3, 1, 3⟩ : StatRow) ∈
      (dnsperf_stats log3 initial_stattable "google.com").1 := by
    simp [dnsperf_stats, recordsFor, log3, initial_stattable, default_domains,
      stat_update_row, latenciesFor, timestampsFor, sql_avg, popVarianceQ,
      sql_min, sql_max]
    norm_num
  exact ⟨by decide, hmem,
    C8_correct log3 initial_stattable "google.com" _ (by decide) hmem rfl⟩

/-- Claim C9 is false on the code: only the ten default domains get a
stats row at table creation, and the SQL `UPDATE` silently matches no
row for any other monitored domain.  The monitored domain `example.com`
has a QueryRecord, yet after the stats recomputation the stats table
holds no row at all for it. -/
theorem C9_counterexample :
    (dnsperf_stats [⟨"example.com", "ns.example.com.", 100, 1⟩]
        initial_stattable "example.com").1.filter
      (fun r => r.domain = "example.com") = [] ∧
    recordsFor [⟨"example.com", "ns.example.com.", 100, 1⟩] "example.com" ≠ [] := by
  constructor
  · simp [dnsperf_stats, recordsFor, initial_stattable, default_domains,
      stat_update_row, latenciesFor, timestampsFor]
  · decide

/-- Claim C9, amended: for a monitored domain that has exactly one stats
row (as each of the ten default domains does in the created table), the
recomputation replaces that row wholly — every field recomputed from the
full QueryRecord history, never partially — and exactly one live row
remains; but a monitored domain outside the default set has no stats row
and the recomputation leaves none behind, so its stats stay missing even
once records exist. -/
theorem C9_amended (log : List QueryRecord) (table : List StatRow) (d : String)
    (h1 : (table.filter (fun r => r.domain = d)).length = 1)
    (h2 : recordsFor log d ≠ []) :
    (dnsperf_stats log table d).1.filter (fun r => r.domain = d) =
      [⟨d, sql_avg (latenciesFor log d), popVarianceQ (latenciesFor log d),
        (latenciesFor log d).length, sql_min (timestampsFor log d),
        sql_max (timestampsFor log d)⟩] ∧
    ∀ dd ∈ default_domains,
      (initial_stattable.filter (fun r => r.domain = dd)).length = 1 := by
  constructor
  · simp only [dnsperf_stats, if_neg h2]
    rw [filter_map_stat_update, h1]
    rfl
  · decide

/-- Claim C9 witness: the amended statement instantiated with the
three-probe `google.com` log and the freshly created stats table. -/
theorem C9_witness :
    (initial_stattable.filter (fun r => r.domain = "google.com")).length = 1 ∧
    recordsFor log3 "google.com" ≠ [] ∧
    ((dnsperf_stats log3 initial_stattable "google.com").1.filter
        (fun r => r.domain = "google.com") =
      [⟨"google.com", sql_avg (latenciesFor log3 "google.com"),
        popVarianceQ (latenciesFor log3 "google.com"),
        (latenciesFor log3 "google.com").length,
        sql_min (timestampsFor log3 "google.com"),
        sql_max (timestampsFor log3 "google.com")⟩] ∧
     ∀ dd ∈ default_domains,
       (initial_stattable.filter (fun r => r.domain = dd)).length = 1) :=
  ⟨by decide, by decide,
    C9_amended log3 initial_stattable "google.com" (by decide) (by decide)⟩

/-- Claim C10 is false on the code in one corner: receipt of a response
packet is not by itself enough to yield a result.  A response packet
whose measured elapsed time is zero microseconds produces the sentinel
`0`, so nothing is logged even though a packet arrived — the no-result
case is not limited to the complete absence of a response. -/
theorem C10_counterexample :
    resolve (.response []) 7 7 = 0 ∧
    run_ns_loop "b.com" [⟨some "ns.b.com.", .response [], 3, 7, 7⟩] =
      ([], false) := by decide

/-- Claim C10, amended: a probe is treated as successful and its latency
logged whenever a response packet was received and the measured elapsed
time is nonzero, regardless of the answer section's contents — an empty
answer section (the expected NXDOMAIN case for the randomized name)
yields exactly the same result as any other answer; the absence of a
response packet, or a measured elapsed time of zero, yields no result. -/
theorem C10_amended (ans ans' : List String) (d ns : String) (tm : Nat)
    (t1 t2 : Int) (h : elapsed_micros t1 t2 ≠ 0) :
    resolve (.response ans) t1 t2 = resolve (.response ans') t1 t2 ∧
    resolve .timeout t1 t2 = 0 ∧
    run_ns_loop d [⟨some ns, .response ans, tm, t1, t2⟩] =
      ([⟨d, ns, elapsed_micros t1 t2, tm⟩], false) := by
  refine ⟨rfl, rfl, ?_⟩
  simp [run_ns_loop, resolve, h]

/-- Claim C10 witness: the amended statement instantiated with an empty
and a one-record answer section and a 500 µs measurement. -/
theorem C10_witness :
    elapsed_micros 0 500 ≠ 0 ∧
    (resolve (.response []) 0 500 = resolve (.response ["1.2.3.4"]) 0 500 ∧
     resolve .timeout 0 500 = 0 ∧
     run_ns_loop "b.com" [⟨some "ns.b.com.", .response [], 3, 0, 500⟩] =
       ([⟨"b.com", "ns.b.com.", elapsed_micros 0 500, 3⟩], false)) :=
  ⟨by decide, C10_amended [] ["1.2.3.4"] "b.com" "ns.b.com." 3 0 500 (by decide)⟩
